/-
  Verification of the AIGrader validation-and-analytics core.

  Shallow embedding of:
    - src/aigrader/score_parser.py   (strict JSON assessment validator)
    - src/aigrader/idempotency.py    (submission fingerprinting / idempotency)
    - src/aigrader/grader.py         (revision metrics engine)

  Python numbers (int/float) are modelled as rationals (ℚ); every numeric
  constant appearing in the claims (1e-9, 1e-6, thresholds 35/70, the
  example scores) is exactly representable, so no floating-point rounding
  is relevant to any statement proved here.
-/
import Mathlib

namespace AIGrader

/-! ## Python error model

All validation failures in score_parser.py are raised as
`JSONParseError(msg)` (a single exception class); the rubric-missing
precondition is raised as `RubricNotFoundError`.  We model each distinct
`raise` site as a constructor carrying the data interpolated into its
message, and record the Python exception class of each site separately in
`pyClass`: this keeps both the control-flow distinction (which check
failed) and the run-time distinction actually available to callers (the
exception class). -/

/-- Python exception classes used by score_parser.py. -/
inductive PyClass where
  | jsonParseError
  | rubricNotFoundError
  deriving DecidableEq, Repr

/-- Validation errors: one constructor per `raise` site in
score_parser.py, carrying the data its message interpolates. -/
inductive VErr where
  /-- Message "Model output was empty or not a string." -/
  | emptyInput
  /-- Message "Invalid JSON from model: {msg} (pos {pos}). Snippet: {snippet}" -/
  | invalidJson (msg : String) (pos : Nat) (snippet : String)
  /-- Message "Top-level JSON must be an object (dictionary)." -/
  | topLevelNotObject
  /-- Message "Missing top-level key(s): {sorted(missing)}" -/
  | missingTopLevelKeys (ks : List String)
  /-- Message "Unexpected top-level key(s): {sorted(extra)}" -/
  | extraTopLevelKeys (ks : List String)
  /-- Message "criteria must be an object mapping criterion_id -> \x7bscore, comment\x7d." -/
  | criteriaNotObject
  /-- Message "criteria is missing rubric criterion id(s): {sorted(missing)}" -/
  | missingCriterionIds (ks : List String)
  /-- Message "criteria contains unexpected criterion id(s): {sorted(extra)}" -/
  | extraCriterionIds (ks : List String)
  /-- Message "criteria.{cid} must be an object with keys \x7bscore, comment\x7d." -/
  | criterionNotObject (cid : String)
  /-- Message "criteria.{cid} missing key(s): {sorted(missing)}" -/
  | criterionMissingKeys (cid : String) (ks : List String)
  /-- Message "criteria.{cid} has unexpected key(s): {sorted(extra)}" -/
  | criterionExtraKeys (cid : String) (ks : List String)
  /-- Message "{path} must be a number, not boolean." -/
  | numberIsBoolean (path : String)
  /-- Message "{path} must be a finite number." -/
  | numberNotFinite (path : String)
  /-- Message "{path} must be a number." -/
  | notANumber (path : String)
  /-- Message "{path} must be a string." -/
  | notAString (path : String)
  /-- Message "criteria.{cid}.score must be >= 0." -/
  | scoreNegative (cid : String)
  /-- Message "criteria.{cid}.score exceeds max points ({max_points})." -/
  | scoreExceedsMax (cid : String) (maxPoints : ℚ)
  /-- Message "criteria.{cid}.comment must be a non-empty string." /
      "overall_comment must be a non-empty string." -/
  | emptyComment (path : String)
  /-- Message "overall_score ({overall}) does not equal sum of criterion scores ({sum})." -/
  | overallScoreMismatch (overall : ℚ) (sum : ℚ)
  /-- Message "Cannot validate: rubric snapshot is missing or empty." -/
  | rubricMissing
  deriving DecidableEq, Repr

/-- The Python exception class each raise site uses: every validation
failure is a `JSONParseError`; only the rubric precondition uses
`RubricNotFoundError`. -/
def pyClass : VErr → PyClass
  | .rubricMissing => .rubricNotFoundError
  | _ => .jsonParseError

/-- Spec taxonomy: `TopLevelKeyMismatch` covers the two raise sites of
`_validate_top_level` that report missing/extra top-level keys. -/
def isTopLevelKeyMismatch : VErr → Prop
  | .missingTopLevelKeys _ => True
  | .extraTopLevelKeys _ => True
  | _ => False

/-- Spec taxonomy: `CriterionKeyMismatch` covers the two raise sites of
`_validate_criteria_keys` that report missing/extra criterion ids. -/
def isCriterionKeyMismatch : VErr → Prop
  | .missingCriterionIds _ => True
  | .extraCriterionIds _ => True
  | _ => False

instance : DecidablePred isTopLevelKeyMismatch := by
  intro e; unfold isTopLevelKeyMismatch
  cases e <;> infer_instance

instance : DecidablePred isCriterionKeyMismatch := by
  intro e; unfold isCriterionKeyMismatch
  cases e <;> infer_instance

/-! ## score_parser.py: numeric validation helpers -/

/-- Model of `_validate_score_range(cid, score, max_points)` from score_parser.py:
```
if score < 0: raise JSONParseError(...must be >= 0.)
if score > max_points + 1e-9: raise JSONParseError(...exceeds max points...)
```
-/
def validate_score_range (cid : String) (score maxPoints : ℚ) : Except VErr Unit :=
  if score < 0 then .error (.scoreNegative cid)
  else if score > maxPoints + 1/1000000000 then .error (.scoreExceedsMax cid maxPoints)
  else .ok ()

/-- Model of `_validate_overall_score(overall_score, score_sum)` from score_parser.py:
```
if abs(overall_score - score_sum) > 1e-6: raise JSONParseError(...)
```
-/
def validate_overall_score (overallScore scoreSum : ℚ) : Except VErr Unit :=
  if |overallScore - scoreSum| > 1/1000000 then
    .error (.overallScoreMismatch overallScore scoreSum)
  else .ok ()

/-! ## Python JSON value model

`json.loads` produces Python values: dicts, lists, strings, ints, floats
(possibly NaN/Infinity), booleans, None.  Floats are modelled as rationals
plus the non-finite cases that `_as_number` rejects.  Dicts are modelled
as assoc lists in insertion order; `json.loads` keeps the last binding for
a duplicated key, so lookups take the last matching entry. -/

inductive PyFloat where
  | finite (q : ℚ)
  | nan
  | inf
  | ninf
  deriving DecidableEq, Repr

inductive JVal where
  | obj (entries : List (String × JVal))
  | arr (items : List JVal)
  | str (s : String)
  | int (n : Int)
  | float (f : PyFloat)
  | bool (b : Bool)
  | null

/-- Model of `set(d.keys())` of a Python dict: each key once.  Entries are kept in
insertion order and deduplicated. -/
def objKeys (es : List (String × JVal)) : List String :=
  (es.map Prod.fst).dedup

/-- Python dict lookup `d[k]` / `d.get(k)`: the last binding wins (as in a
dict built by `json.loads` from possibly-duplicated JSON keys). -/
def objGet (es : List (String × JVal)) (k : String) : Option JVal :=
  (es.reverse.find? (fun p => p.1 == k)).map Prod.snd

/-- Model of `d[k]` at a call site where prior validation guarantees the key is
present; the `.null` default is unreachable there. -/
def objGetD (es : List (String × JVal)) (k : String) : JVal :=
  (objGet es k).getD .null

/-- Model of `sorted(xs)` for a list of strings (Python sorts the set differences
before interpolating them into messages). -/
def pySorted (l : List String) : List String :=
  l.mergeSort (fun a b => a ≤ b)

/-! ## score_parser.py: data model -/

/-- Model of `RubricCriterion` from grader.py (`points` is declared `float`; the
`float(c.points)` coercion in `_rubric_criteria_map` is the identity on
it, and `str(c.id)` is the identity on the declared `str`). -/
structure RubricCriterion where
  id : String
  description : String
  long_description : String
  points : ℚ

structure RubricSnapshot where
  title : String
  points_total : ℚ
  criteria : List RubricCriterion

/-- Model of `GradeRun` restricted to the only field score_parser.py reads
(`run.rubric`); `rubric = none` models a `None` rubric attribute. -/
structure GradeRun where
  rubric : Option RubricSnapshot

structure CriterionAssessment where
  score : ℚ
  comment : String
  deriving DecidableEq, Repr

structure AssessmentResult where
  overall_score : ℚ
  overall_comment : String
  criteria : List (String × CriterionAssessment)
  deriving DecidableEq, Repr

/-- Python dict assignment `m[k] = v`: update in place if the key exists,
else append. -/
def dictUpsert {α : Type} (m : List (String × α)) (k : String) (v : α) :
    List (String × α) :=
  if m.any (fun p => p.1 == k) then
    m.map (fun p => if p.1 == k then (k, v) else p)
  else m ++ [(k, v)]

/-- Model of `_rubric_criteria_map` from score_parser.py. -/
def rubric_criteria_map (cs : List RubricCriterion) : List (String × ℚ) :=
  cs.foldl (fun m c => dictUpsert m c.id c.points) []

/-! ## score_parser.py: schema validation -/

def required_top_level : List String := ["overall_score", "overall_comment", "criteria"]

/-- Model of `_validate_top_level` from score_parser.py. -/
def validate_top_level (es : List (String × JVal)) : Except VErr Unit :=
  let keys := objKeys es
  let missing := required_top_level.filter (fun k => !(keys.contains k))
  let extra := keys.filter (fun k => !(required_top_level.contains k))
  if missing ≠ [] then .error (.missingTopLevelKeys (pySorted missing))
  else if extra ≠ [] then .error (.extraTopLevelKeys (pySorted extra))
  else
    match objGetD es "criteria" with
    | .obj _ => .ok ()
    | _ => .error .criteriaNotObject

/-- Model of `_validate_criteria_keys` from score_parser.py. -/
def validate_criteria_keys (critEntries : List (String × JVal))
    (rubricMap : List (String × ℚ)) : Except VErr Unit :=
  let got := objKeys critEntries
  let expected := (rubricMap.map Prod.fst).dedup
  let missing := expected.filter (fun k => !(got.contains k))
  let extra := got.filter (fun k => !(expected.contains k))
  if missing ≠ [] then .error (.missingCriterionIds (pySorted missing))
  else if extra ≠ [] then .error (.extraCriterionIds (pySorted extra))
  else .ok ()

def required_item_keys : List String := ["score", "comment"]

/-- Model of `_validate_criterion_item` from score_parser.py. -/
def validate_criterion_item (cid : String) (item : JVal) : Except VErr Unit :=
  match item with
  | .obj es =>
    let keys := objKeys es
    let missing := required_item_keys.filter (fun k => !(keys.contains k))
    let extra := keys.filter (fun k => !(required_item_keys.contains k))
    if missing ≠ [] then .error (.criterionMissingKeys cid (pySorted missing))
    else if extra ≠ [] then .error (.criterionExtraKeys cid (pySorted extra))
    else .ok ()
  | _ => .error (.criterionNotObject cid)

/-- Model of `_as_string` from score_parser.py. -/
def as_string (v : JVal) (path : String) : Except VErr String :=
  match v with
  | .str s => .ok s
  | _ => .error (.notAString path)

/-- Model of `_as_number` from score_parser.py: booleans rejected first (they are
`int` subclasses in Python), then int/float accepted with a finiteness
check, everything else rejected. -/
def as_number (v : JVal) (path : String) : Except VErr ℚ :=
  match v with
  | .bool _ => .error (.numberIsBoolean path)
  | .int n => .ok (n : ℚ)
  | .float (.finite q) => .ok q
  | .float _ => .error (.numberNotFinite path)
  | _ => .error (.notANumber path)

/-! ## score_parser.py: parsing and the main pipeline -/

/-- Result of a call to `json.loads` (Python standard library, external to
the repository): either a Python value or a `JSONDecodeError` with its
message and position.  The validator is parameterised over this function;
no claim depends on the JSON grammar itself. -/
inductive JsonDecodeResult where
  | ok (v : JVal)
  | err (msg : String) (pos : Nat)

/-- Model of `s[:400].replace("\n", "\\n")` from `_parse_json_strict`. -/
def pySnippet (s : String) : String :=
  String.join ((s.data.take 400).map
    (fun c => if c = '\n' then "\\n" else String.mk [c]))

/-- Model of `_parse_json_strict` from score_parser.py. -/
def parse_json_strict (loads : String → JsonDecodeResult)
    (model_text : String) : Except VErr JVal :=
  if model_text.trim = "" then .error .emptyInput
  else
    let s := model_text.trim
    match loads s with
    | .err msg pos => .error (.invalidJson msg pos (pySnippet s))
    | .ok v =>
      match v with
      | .obj es => .ok (.obj es)
      | _ => .error .topLevelNotObject

/-- The per-criterion loop of `parse_and_validate` (score_parser.py lines
77–89): iterate over the rubric map in insertion order, validating each
criterion item, accumulating the assessments dict and the running score
sum. -/
def validate_criteria_loop (critEntries : List (String × JVal)) :
    List (String × ℚ) → List (String × CriterionAssessment) → ℚ →
    Except VErr (List (String × CriterionAssessment) × ℚ)
  | [], acc, s => .ok (acc, s)
  | (cid, maxPoints) :: rest, acc, s => do
    let item := objGetD critEntries cid
    let _ ← validate_criterion_item cid item
    match item with
    | .obj es => do
      let score ← as_number (objGetD es "score") ("criteria." ++ cid ++ ".score")
      let _ ← validate_score_range cid score maxPoints
      let comment ← as_string (objGetD es "comment") ("criteria." ++ cid ++ ".comment")
      let comment := comment.trim
      if comment = "" then .error (.emptyComment ("criteria." ++ cid ++ ".comment"))
      else
        validate_criteria_loop critEntries rest
          (dictUpsert acc cid ⟨score, comment⟩) (s + score)
    | _ => .error (.criterionNotObject cid)  -- unreachable after validate_criterion_item

/-- The post-parse stage of `parse_and_validate` (score_parser.py lines
69–102), over the already-parsed top-level object entries and the rubric
map.  The final checks keep the source's order: `overall_score` type
check, `overall_comment` type/empty check, then
`_validate_overall_score`. -/
def validate_parsed (es : List (String × JVal)) (rubricMap : List (String × ℚ)) :
    Except VErr AssessmentResult := do
  let _ ← validate_top_level es
  match objGetD es "criteria" with
  | .obj crit => do
    let _ ← validate_criteria_keys crit rubricMap
    let pair ← validate_criteria_loop crit rubricMap [] 0
    let overallScore ← as_number (objGetD es "overall_score") "overall_score"
    let overallComment0 ← as_string (objGetD es "overall_comment") "overall_comment"
    let overallComment := overallComment0.trim
    if overallComment = "" then .error (.emptyComment "overall_comment")
    else do
      let _ ← validate_overall_score overallScore pair.2
      .ok ⟨overallScore, overallComment, pair.1⟩
  | _ => .error .criteriaNotObject  -- unreachable: validate_top_level checked this

/-- Model of `parse_and_validate` from score_parser.py. -/
def parse_and_validate (loads : String → JsonDecodeResult)
    (model_text : String) (run : Option GradeRun) : Except VErr AssessmentResult :=
  match run with
  | none => .error .rubricMissing
  | some r =>
    match r.rubric with
    | none => .error .rubricMissing
    | some rub =>
      match rub.criteria with
      | [] => .error .rubricMissing
      | _ :: _ => do
        let obj ← parse_json_strict loads model_text
        match obj with
        | .obj es => validate_parsed es (rubric_criteria_map rub.criteria)
        | _ => .error .topLevelNotObject  -- unreachable: parse_json_strict returns objects only

/-! ## idempotency.py

`compute_submission_fingerprint` / `already_assessed` read a Canvas
submission JSON dict.  We model exactly the fields the module reads;
Python `x or y` falsiness on strings (empty string is falsy) is modelled
explicitly. -/

/-- The `body` field of a submission: text, or a non-text JSON value
(whose Python truthiness decides how `body or ""` behaves before the
`isinstance(body, str)` guard zeroes it anyway). -/
inductive PyBody where
  | text (s : String)
  | nonText (truthy : Bool)

/-- A value stored under `"comment"` in a submission comment dict. -/
inductive CommentVal where
  | vstr (s : String)
  | nonStrTruthy
  | nonStrFalsy

/-- One element of `submission_comments`: a dict (with an optional
`comment` field) or some non-dict value (skipped by the loop). -/
inductive CommentEntry where
  | nonDict
  | cdict (comment : Option CommentVal)

/-- The `submission_comments` field: a list, or a non-list value (the
`isinstance(comments, list)` guard returns False on truthy non-lists,
while falsy ones were already replaced by `[]` by `or []`). -/
inductive CommentsField where
  | clist (cs : List CommentEntry)
  | nonListTruthy
  | nonListFalsy

/-- The submission-dict fields read by idempotency.py. -/
structure Submission where
  attempt : Option Int
  submitted_at : Option String
  posted_at : Option String
  updated_at : Option String
  body : Option PyBody
  submission_comments : Option CommentsField

/-- Python `v or dflt` for an optional string value: absent/None and the
empty string are falsy. -/
def pyOrStr (v : Option String) (dflt : String) : String :=
  match v with
  | some s => if s = "" then dflt else s
  | none => dflt

/-- Model of `submission.get("body") or ""` followed by
`if not isinstance(body, str): body = ""`. -/
def effBody : Option PyBody → String
  | some (.text s) => s
  | _ => ""

def FINGERPRINT_PREFIX : String := "aigrader_fingerprint:"

/-- Decimal digit to character (the fallback arm is unreachable: decimal
digits are below 10). -/
def digitChar : ℕ → Char
  | 0 => '0' | 1 => '1' | 2 => '2' | 3 => '3' | 4 => '4'
  | 5 => '5' | 6 => '6' | 7 => '7' | 8 => '8' | 9 => '9'
  | _ => '*'

/-- Decimal digits of a natural number, most significant first
(`str(n)` for `n ≥ 0`). -/
def natStr (n : ℕ) : String :=
  if n = 0 then "0"
  else String.mk (((Nat.digits 10 n).map digitChar).reverse)

/-- Model of `submitted_at = submission.get("submitted_at") or submission.get("posted_at") or ""`. -/
def effSubmittedAt (sub : Submission) : String :=
  pyOrStr sub.submitted_at (pyOrStr sub.posted_at "")

/-- Model of `updated_at = submission.get("updated_at") or ""`. -/
def effUpdatedAt (sub : Submission) : String :=
  pyOrStr sub.updated_at ""

/-- Python `str(i)` for an integer. -/
def pyIntStr (i : ℤ) : String :=
  if i < 0 then "-" ++ natStr i.natAbs else natStr i.natAbs

/-- Model of `compute_submission_fingerprint` from idempotency.py, parameterised
over the hex digest function.

Modelled from the spec: `hashlib.sha256(...).hexdigest()` (the Python
standard library, not part of this repository) is the "hex-encoded
cryptographic hash"; the embedding takes it as the parameter
`sha256hex`. -/
def compute_submission_fingerprint (sha256hex : String → String)
    (sub : Submission) : String :=
  let submitted_at := effSubmittedAt sub
  let updated_at := effUpdatedAt sub
  let body_hash := sha256hex (effBody sub.body)
  match sub.attempt with
  | none =>
      "attempt=?|submitted_at=" ++ submitted_at ++ "|updated_at=" ++ updated_at ++
        "|body_sha256=" ++ body_hash
  | some n =>
      "attempt=" ++ pyIntStr n ++ "|submitted_at=" ++ submitted_at ++
        "|updated_at=" ++ updated_at ++ "|body_sha256=" ++ body_hash

/-- The canonical fingerprint form as the SPEC's words state it
(`attempt=<n|?>|submitted_at=<ts>|updated_at=<ts>|body_hash=<hex>`),
written to be compared with the source's
`compute_submission_fingerprint`. -/
def spec_fingerprint_form (sha256hex : String → String)
    (sub : Submission) : String :=
  (match sub.attempt with
   | none => "attempt=?"
   | some n => "attempt=" ++ pyIntStr n) ++
    "|submitted_at=" ++ effSubmittedAt sub ++
    "|updated_at=" ++ effUpdatedAt sub ++
    "|body_hash=" ++ sha256hex (effBody sub.body)

/-- The effective text of one comment entry: `none` when the loop skips
it (`continue` for non-dicts, or a truthy non-string failing
`isinstance(txt, str)`), otherwise the string scanned for the needle. -/
def commentText : CommentEntry → Option String
  | .nonDict => none
  | .cdict none => some ""
  | .cdict (some (.vstr s)) => some s
  | .cdict (some .nonStrFalsy) => some ""
  | .cdict (some .nonStrTruthy) => none

/-- Model of `already_assessed` from idempotency.py. -/
def already_assessed (sub : Submission) (fingerprint : String) : Bool :=
  let comments : Option (List CommentEntry) :=
    match sub.submission_comments with
    | none => some []
    | some .nonListFalsy => some []
    | some (.clist cs) => some cs
    | some .nonListTruthy => none
  match comments with
  | none => false
  | some cs =>
    let needle := FINGERPRINT_PREFIX ++ " " ++ fingerprint
    cs.any (fun c =>
      match commentText c with
      | some txt => decide ( List.IsInfix needle.data txt.data)
      | none => false)

/-- Model of `get_fingerprint_marker` from idempotency.py. -/
def get_fingerprint_marker (fingerprint : String) : String :=
  FINGERPRINT_PREFIX ++ " " ++ fingerprint

/-! ## grader.py: revision metrics -/

/-- Termination helper: `dropWhile` never lengthens a list. -/
theorem length_dropWhile_le (p : Char → Bool) (l : List Char) :
    (l.dropWhile p).length ≤ l.length :=
  List.Sublist.length_le (List.dropWhile_sublist _)

/-- The `[.!?]` character class of `_SENT_SPLIT_RE`. -/
def isSentPunct (c : Char) : Bool := c == '.' || c == '!' || c == '?'

/-- Model of `re.split(r"[.!?]+(?:\s+|$)", ·)` over a char list, `acc` holding the
current fragment reversed.  A run of sentence punctuation is a split
point iff it is followed by whitespace (consumed greedily) or by the end
of the string (producing a final empty fragment, as `re.split` does). -/
def sentSplitAux (cs : List Char) (acc : List Char) : List String :=
  match cs with
  | [] => [String.mk acc.reverse]
  | c :: rest =>
    if isSentPunct c then
      match h : rest.dropWhile isSentPunct with
      | [] => [String.mk acc.reverse, ""]
      | d :: rest'' =>
        if d.isWhitespace then
          String.mk acc.reverse :: sentSplitAux (rest''.dropWhile Char.isWhitespace) []
        else
          sentSplitAux (d :: rest'') ((rest.takeWhile isSentPunct).reverse ++ (c :: acc))
    else
      sentSplitAux rest (c :: acc)
termination_by cs.length
decreasing_by
  · have h1 : (rest''.dropWhile Char.isWhitespace).length ≤ rest''.length :=
      length_dropWhile_le _ _
    have h2 : (rest.dropWhile isSentPunct).length ≤ rest.length :=
      length_dropWhile_le _ _
    rw [h] at h2
    simp only [List.length_cons] at h2 ⊢
    omega
  · have h2 : (rest.dropWhile isSentPunct).length ≤ rest.length :=
      length_dropWhile_le _ _
    rw [h] at h2
    simp only [List.length_cons] at h2 ⊢
    omega
  · simp only [List.length_cons]
    omega

/-- Model of `_split_sentences` from grader.py. -/
def split_sentences (text : String) : List String :=
  let t := text.trim
  if t = "" then []
  else ((sentSplitAux t.data []).map String.trim).filter (fun p => p ≠ "")

/-- Model of `re.sub(r"\s+", " ", ·)`: collapse each maximal whitespace run to a
single space. -/
def collapseWsAux (cs : List Char) : List Char :=
  match cs with
  | [] => []
  | c :: rest =>
    if c.isWhitespace then ' ' :: collapseWsAux (rest.dropWhile Char.isWhitespace)
    else c :: collapseWsAux rest
termination_by cs.length
decreasing_by
  · have h1 : (rest.dropWhile Char.isWhitespace).length ≤ rest.length :=
      length_dropWhile_le _ _
    simp only [List.length_cons]
    omega
  · simp only [List.length_cons]
    omega

/-- Python `\w` (ASCII): letters, digits, underscore. -/
def isWordChar (c : Char) : Bool := c.isAlphanum || c == '_'

/-- Model of `_norm_sentence` from grader.py: lowercase, trim, collapse
whitespace, delete everything but word chars / whitespace / apostrophes,
trim again. -/
def norm_sentence (s : String) : String :=
  let s1 := s.toLower.trim
  let s2 := String.mk (collapseWsAux s1.data)
  let s3 := String.mk (s2.data.filter (fun c => isWordChar c || c.isWhitespace || c == '\''))
  s3.trim

/-- The `[A-Za-z0-9']` character class of `_tokenize_words`. -/
def isTokChar (c : Char) : Bool :=
  decide (('A' ≤ c ∧ c ≤ 'Z') ∨ ('a' ≤ c ∧ c ≤ 'z') ∨ ('0' ≤ c ∧ c ≤ '9') ∨ c = '\'')

/-- Model of `re.findall(r"[A-Za-z0-9']+", ·)`: maximal token runs. -/
def tokenizeAux (cs : List Char) : List String :=
  match cs with
  | [] => []
  | c :: rest =>
    if isTokChar c then
      String.mk (c :: rest.takeWhile isTokChar) :: tokenizeAux (rest.dropWhile isTokChar)
    else tokenizeAux rest
termination_by cs.length
decreasing_by
  · have h1 : (rest.dropWhile isTokChar).length ≤ rest.length :=
      length_dropWhile_le _ _
    simp only [List.length_cons]
    omega
  · simp only [List.length_cons]
    omega

/-- Model of `_tokenize_words` from grader.py. -/
def tokenize_words (text : String) : List String :=
  tokenizeAux text.toLower.data

/-- Model of `_sentence_change_pct` from grader.py. -/
def sentence_change_pct (prevSents currSents : List String) : ℚ :=
  if prevSents = [] then 0
  else
    let prevNorm := (prevSents.filter (fun s => s.trim ≠ "")).map norm_sentence
    let currSet := (currSents.filter (fun s => s.trim ≠ "")).map norm_sentence
    if prevNorm = [] then 0
    else
      let unchanged := (prevNorm.filter (fun s => currSet.contains s)).length
      let changed : ℤ := max 0 ((prevNorm.length : ℤ) - (unchanged : ℤ))
      100 * (changed : ℚ) / ((max 1 prevNorm.length : ℕ) : ℚ)

/-- Model of `_word_jaccard_pct` from grader.py: Jaccard similarity of the two
token sets, as a percentage. -/
def word_jaccard_pct (a b : String) : ℚ :=
  let wa := (tokenize_words a).toFinset
  let wb := (tokenize_words b).toFinset
  if wa = ∅ ∧ wb = ∅ then 100
  else
    let inter := (wa ∩ wb).card
    let union := (wa ∪ wb).card
    if union ≤ 0 then 0
    else 100 * (inter : ℚ) / (union : ℚ)

/-- Model of `_variance` from grader.py: population variance. -/
def variance (nums : List ℕ) : ℚ :=
  if nums = [] then 0
  else
    let mean : ℚ := ((nums.map (fun n => (n : ℚ))).sum) / (nums.length : ℚ)
    ((nums.map (fun x => ((x : ℚ) - mean) ^ 2)).sum) / (nums.length : ℚ)

/-- Model of `re.split(r"\n\s*\n+", ·)`: a match starts at a newline whose
following maximal whitespace run contains another newline, and extends
through the last newline of that run (the regex backtracks `\s*` just
far enough for `\n+` to match, then `\n+` is greedy). -/
def paraSplitAux (cs : List Char) (acc : List Char) : List String :=
  match cs with
  | [] => [String.mk acc.reverse]
  | c :: rest =>
    if c == '\n' then
      let w := rest.takeWhile Char.isWhitespace
      if w.contains '\n' then
        let w' := (w.reverse.dropWhile (fun d => !(d == '\n'))).reverse
        String.mk acc.reverse :: paraSplitAux (rest.drop w'.length) []
      else paraSplitAux rest (c :: acc)
    else paraSplitAux rest (c :: acc)
termination_by cs.length
decreasing_by
  · have h1 : ∀ (l : List Char) (n : ℕ), (l.drop n).length ≤ l.length := by
      intro l n; simp
    have h2 := h1 rest (((rest.takeWhile Char.isWhitespace).reverse.dropWhile
        (fun d => !(d == '\n'))).reverse).length
    simp only [List.length_cons]
    omega
  · simp only [List.length_cons]
    omega
  · simp only [List.length_cons]
    omega

/-- Model of `_paragraph_count` from grader.py. -/
def paragraph_count (text : String) : ℕ :=
  ((paraSplitAux text.trim.data []).filter (fun b => b.trim ≠ "")).length

/-- Model of `RevisionMetrics` from grader.py. -/
structure RevisionMetrics where
  sentence_change_pct : ℚ
  word_overlap_pct : ℚ
  avg_sentence_length_before : ℚ
  avg_sentence_length_after : ℚ
  sentence_length_variance_before : ℚ
  sentence_length_variance_after : ℚ
  paragraph_count_before : ℕ
  paragraph_count_after : ℕ
  deriving DecidableEq, Repr

/-- Model of `_compute_revision_metrics` from grader.py. -/
def compute_revision_metrics (previous_text current_text : String) : RevisionMetrics :=
  let prev_sents := split_sentences previous_text
  let curr_sents := split_sentences current_text
  let scp := sentence_change_pct prev_sents curr_sents
  let wop := word_jaccard_pct previous_text current_text
  let prev_lens0 := prev_sents.map (fun s => (tokenize_words s).length)
  let curr_lens0 := curr_sents.map (fun s => (tokenize_words s).length)
  let prev_lens := if prev_lens0 = [] then [0] else prev_lens0
  let curr_lens := if curr_lens0 = [] then [0] else curr_lens0
  let avg_before : ℚ := (prev_lens.sum : ℚ) / ((max 1 prev_lens.length : ℕ) : ℚ)
  let avg_after : ℚ := (curr_lens.sum : ℚ) / ((max 1 curr_lens.length : ℕ) : ℚ)
  { sentence_change_pct := scp
    word_overlap_pct := wop
    avg_sentence_length_before := avg_before
    avg_sentence_length_after := avg_after
    sentence_length_variance_before := variance prev_lens
    sentence_length_variance_after := variance curr_lens
    paragraph_count_before := paragraph_count previous_text
    paragraph_count_after := paragraph_count current_text }

/-- Model of `_revision_depth_label` from grader.py. -/
def revision_depth_label (m : RevisionMetrics) : String :=
  if m.sentence_change_pct ≥ 70 then "substantial"
  else if m.sentence_change_pct ≥ 35 then "moderate"
  else "light"

/-! ## Concrete inputs used by witnesses and counterexamples -/

/-- A two-criterion rubric worth 5 + 5 (the spec's sum-consistency
scenario). -/
def rubric55 : RubricSnapshot :=
  ⟨"R", 10, [⟨"c1", "", "", 5⟩, ⟨"c2", "", "", 5⟩]⟩

def runOf (rub : RubricSnapshot) : Option GradeRun := some ⟨some rub⟩

/-- A `json.loads` behaviour returning a fixed value. -/
def loadsConst (v : JVal) : String → JsonDecodeResult := fun _ => .ok v

/-- A payload for `rubric55` with criterion scores 3 and 2 and the given
overall score / overall comment. -/
def payload32 (overall : JVal) (comment : String) : JVal :=
  .obj [("overall_score", overall), ("overall_comment", .str comment),
        ("criteria", .obj
          [("c1", .obj [("score", .int 3), ("comment", .str "good")]),
           ("c2", .obj [("score", .int 2), ("comment", .str "fine")])])]

/-- A payload for `rubric55` whose criteria map carries the extra key
`"_bogus"`. -/
def payloadBogus : JVal :=
  .obj [("overall_score", .int 5), ("overall_comment", .str "ok"),
        ("criteria", .obj
          [("c1", .obj [("score", .int 3), ("comment", .str "good")]),
           ("c2", .obj [("score", .int 2), ("comment", .str "fine")]),
           ("_bogus", .int 1)])]

/-- A payload with the `"criteria"` top-level key removed. -/
def payloadNoCrit : JVal :=
  .obj [("overall_score", .int 5), ("overall_comment", .str "ok")]

/-- The attempt segment of the fingerprint: `attempt=<n|?>`. -/
def attemptSeg : Option ℤ → String
  | none => "attempt=?"
  | some n => "attempt=" ++ pyIntStr n

/-- A submission with every field absent. -/
def subEmpty : Submission := ⟨none, none, none, none, none, none⟩

/-- A submission whose only comment embeds the marker for fingerprint
"FP". -/
def subW : Submission :=
  ⟨none, none, none, none, none,
    some (.clist [CommentEntry.cdict (some (.vstr "x aigrader_fingerprint: FP y"))])⟩

/-- Timestamp-collision pair: `subT1` and `subT2` differ in both
timestamp fields yet the `|updated_at=` separator embedded in the
timestamp strings makes their fingerprints coincide. -/
def subT1 : Submission := ⟨none, some "a|updated_at=b", none, some "c", none, none⟩

def subT2 : Submission := ⟨none, some "a", none, some "b|updated_at=c", none, none⟩

/-- Attempt-sensitivity pair: identical but for attempt 1 vs 2. -/
def subA1 : Submission := ⟨some 1, some "T", none, some "U", some (.text "B"), none⟩

def subA2 : Submission := ⟨some 2, some "T", none, some "U", some (.text "B"), none⟩

end AIGrader

deriving instance DecidableEq for Except

namespace AIGrader

/-! ## General helper lemmas -/

theorem except_bind_ok {α β : Type} (x : Except VErr α) (f : α → Except VErr β) (b : β) :
    x >>= f = .ok b ↔ ∃ a, x = .ok a ∧ f a = .ok b := by
  cases x <;> simp [Bind.bind, Except.bind]

theorem not_contains_iff (l : List String) (a : String) :
    ((! l.contains a) = true) ↔ a ∉ l := by
  simp [List.elem_iff]

theorem contains_iff (l : List String) (a : String) :
    (l.contains a = true) ↔ a ∈ l :=
  List.elem_iff

/-! ## Pipeline evaluation lemmas for score_parser.py -/

/-- When `_validate_top_level` succeeds, the top-level key set is
exactly the required one and `criteria` is an object. -/
theorem validate_top_level_ok {es : List (String × JVal)}
    (h : validate_top_level es = .ok ()) :
    (∀ k, k ∈ objKeys es ↔ k ∈ required_top_level) ∧
      ∃ crit, objGetD es "criteria" = .obj crit := by
  unfold validate_top_level at h
  dsimp only at h
  split_ifs at h with h1 h2
  · rw [not_ne_iff] at h1
    rw [not_ne_iff] at h2
    have hmiss := List.filter_eq_nil_iff.mp h1
    have hextra := List.filter_eq_nil_iff.mp h2
    constructor
    · intro k
      constructor
      · intro hk
        by_contra hnot
        exact hextra k hk ((not_contains_iff _ _).mpr hnot)
      · intro hk
        by_contra hnot
        exact hmiss k hk ((not_contains_iff _ _).mpr hnot)
    · match hm : objGetD es "criteria" with
      | .obj crit => exact ⟨crit, rfl⟩
      | .arr v => rw [hm] at h; exact absurd h (by simp)
      | .str v => rw [hm] at h; exact absurd h (by simp)
      | .int v => rw [hm] at h; exact absurd h (by simp)
      | .float v => rw [hm] at h; exact absurd h (by simp)
      | .bool v => rw [hm] at h; exact absurd h (by simp)
      | .null => rw [hm] at h; exact absurd h (by simp)

/-- When `_validate_criteria_keys` succeeds, the criteria key set is
exactly the rubric-map key set. -/
theorem validate_criteria_keys_ok {crit : List (String × JVal)}
    {rmap : List (String × ℚ)}
    (h : validate_criteria_keys crit rmap = .ok ()) :
    ∀ k, k ∈ objKeys crit ↔ k ∈ rmap.map Prod.fst := by
  unfold validate_criteria_keys at h
  dsimp only at h
  split_ifs at h with h1 h2
  · rw [not_ne_iff] at h1
    rw [not_ne_iff] at h2
    have hmiss := List.filter_eq_nil_iff.mp h1
    have hextra := List.filter_eq_nil_iff.mp h2
    intro k
    constructor
    · intro hk
      by_contra hnot
      exact hextra k hk ((not_contains_iff _ _).mpr (fun hm => hnot (List.mem_dedup.mp hm)))
    · intro hk
      by_contra hnot
      exact hmiss k (List.mem_dedup.mpr hk) ((not_contains_iff _ _).mpr hnot)

/-- Any missing or extra criterion id makes `_validate_criteria_keys`
fail with one of its two key-mismatch errors. -/
theorem validate_criteria_keys_err {crit : List (String × JVal)}
    {rmap : List (String × ℚ)}
    (h : ∃ k, (k ∈ rmap.map Prod.fst ∧ k ∉ objKeys crit) ∨
      (k ∈ objKeys crit ∧ k ∉ rmap.map Prod.fst)) :
    ∃ e, validate_criteria_keys crit rmap = .error e ∧ isCriterionKeyMismatch e := by
  unfold validate_criteria_keys
  dsimp only
  split_ifs with h1 h2
  · exact ⟨_, rfl, trivial⟩
  · exact ⟨_, rfl, trivial⟩
  · exfalso
    rw [not_ne_iff] at h1
    rw [not_ne_iff] at h2
    have hmiss := List.filter_eq_nil_iff.mp h1
    have hextra := List.filter_eq_nil_iff.mp h2
    obtain ⟨k, hk | hk⟩ := h
    · exact hmiss k (List.mem_dedup.mpr hk.1) ((not_contains_iff _ _).mpr hk.2)
    · exact hextra k hk.1
        ((not_contains_iff _ _).mpr (fun hm => hk.2 (List.mem_dedup.mp hm)))

/-- A missing `"criteria"` top-level key makes `_validate_top_level`
fail with the missing-top-level-keys error. -/
theorem validate_top_level_missing_criteria {es : List (String × JVal)}
    (h : "criteria" ∉ objKeys es) :
    ∃ e, validate_top_level es = .error e ∧ isTopLevelKeyMismatch e := by
  unfold validate_top_level
  dsimp only
  have hmem : "criteria" ∈ required_top_level.filter (fun k => !((objKeys es).contains k)) :=
    List.mem_filter.mpr ⟨by decide, (not_contains_iff _ _).mpr h⟩
  rw [if_pos (List.ne_nil_of_mem hmem)]
  exact ⟨_, rfl, trivial⟩

/-- Reduction lemma: `parse_and_validate` reduces to the post-parse stage when the rubric
is non-empty, the input is non-blank and `json.loads` returns an
object. -/
theorem parse_and_validate_run (loads : String → JsonDecodeResult) (t : String)
    (rub : RubricSnapshot) (es : List (String × JVal))
    (hc : rub.criteria ≠ []) (ht : t.trim ≠ "") (hl : loads t.trim = .ok (.obj es)) :
    parse_and_validate loads t (some ⟨some rub⟩) =
      validate_parsed es (rubric_criteria_map rub.criteria) := by
  obtain ⟨c, cs, hcrit⟩ : ∃ c cs, rub.criteria = c :: cs := by
    cases hx : rub.criteria with
    | nil => exact absurd hx hc
    | cons a l => exact ⟨a, l, rfl⟩
  have hp : parse_json_strict loads t = .ok (.obj es) := by
    unfold parse_json_strict
    rw [if_neg ht]
    dsimp only
    rw [hl]
  unfold parse_and_validate
  simp only [hcrit]
  rw [hp]
  rfl

/-- Reduction lemma: `validate_parsed` reduces past the top-level checks when they
succeed. -/
theorem validate_parsed_steps (es crit : List (String × JVal)) (rmap : List (String × ℚ))
    (h1 : validate_top_level es = .ok ())
    (h2 : objGetD es "criteria" = .obj crit) :
    validate_parsed es rmap =
      (do
        let _ ← validate_criteria_keys crit rmap
        let pair ← validate_criteria_loop crit rmap [] 0
        let overallScore ← as_number (objGetD es "overall_score") "overall_score"
        let overallComment0 ← as_string (objGetD es "overall_comment") "overall_comment"
        let overallComment := overallComment0.trim
        if overallComment = "" then .error (.emptyComment "overall_comment")
        else do
          let _ ← validate_overall_score overallScore pair.2
          (.ok ⟨overallScore, overallComment, pair.1⟩ : Except VErr AssessmentResult)) := by
  unfold validate_parsed
  rw [h1, h2]
  rfl

theorem except_ok_bind {α β : Type} (a : α) (f : α → Except VErr β) :
    (Except.ok a >>= f) = f a := rfl

theorem except_error_bind {α β : Type} (e : VErr) (f : α → Except VErr β) :
    ((Except.error e : Except VErr α) >>= f) = .error e := rfl

/-! ## C1: exact key-set enforcement -/

/-- C1. Validation succeeds only when the parsed top-level key set
is exactly `{overall_score, overall_comment, criteria}` and the criteria
key set is exactly the rubric id set; any missing or extra criterion id
(e.g. one id removed, or `"_bogus"` added) yields a criterion-key
mismatch error, and a missing `"criteria"` key yields a top-level-key
mismatch error. -/
theorem C1_exact_keyset :
    (∀ (loads : String → JsonDecodeResult) (t : String) (rub : RubricSnapshot)
        (es : List (String × JVal)) (res : AssessmentResult),
      loads t.trim = .ok (.obj es) →
      parse_and_validate loads t (some ⟨some rub⟩) = .ok res →
      ((∀ k, k ∈ objKeys es ↔ k ∈ required_top_level) ∧
       ∃ crit, objGetD es "criteria" = .obj crit ∧
         (∀ k, k ∈ objKeys crit ↔ k ∈ (rubric_criteria_map rub.criteria).map Prod.fst))) ∧
    (∀ (loads : String → JsonDecodeResult) (t : String) (rub : RubricSnapshot)
        (es crit : List (String × JVal)),
      rub.criteria ≠ [] → t.trim ≠ "" → loads t.trim = .ok (.obj es) →
      validate_top_level es = .ok () → objGetD es "criteria" = .obj crit →
      (∃ k, (k ∈ (rubric_criteria_map rub.criteria).map Prod.fst ∧ k ∉ objKeys crit) ∨
            (k ∈ objKeys crit ∧ k ∉ (rubric_criteria_map rub.criteria).map Prod.fst)) →
      ∃ e, parse_and_validate loads t (some ⟨some rub⟩) = .error e ∧
        isCriterionKeyMismatch e) ∧
    (∀ (loads : String → JsonDecodeResult) (t : String) (rub : RubricSnapshot)
        (es : List (String × JVal)),
      rub.criteria ≠ [] → t.trim ≠ "" → loads t.trim = .ok (.obj es) →
      "criteria" ∉ objKeys es →
      ∃ e, parse_and_validate loads t (some ⟨some rub⟩) = .error e ∧
        isTopLevelKeyMismatch e) := by
  refine ⟨?_, ?_, ?_⟩
  · intro loads t rub es res hl hok
    have hc : rub.criteria ≠ [] := by
      intro hnil
      unfold parse_and_validate at hok
      simp only [hnil] at hok
      exact Except.noConfusion hok
    have ht : t.trim ≠ "" := by
      intro htr
      obtain ⟨c, cs, hcrit⟩ : ∃ c cs, rub.criteria = c :: cs := by
        cases hx : rub.criteria with
        | nil => exact absurd hx hc
        | cons a l => exact ⟨a, l, rfl⟩
      have hp : parse_json_strict loads t = .error .emptyInput := by
        unfold parse_json_strict
        rw [if_pos htr]
      unfold parse_and_validate at hok
      simp only [hcrit] at hok
      rw [hp, except_error_bind] at hok
      exact Except.noConfusion hok
    rw [parse_and_validate_run loads t rub es hc ht hl] at hok
    unfold validate_parsed at hok
    obtain ⟨a, h1, hrest⟩ := (except_bind_ok _ _ _).mp hok
    cases a
    obtain ⟨hkeys, crit, hcrit2⟩ := validate_top_level_ok h1
    refine ⟨hkeys, crit, hcrit2, ?_⟩
    simp only [hcrit2] at hrest
    obtain ⟨b, h2, -⟩ := (except_bind_ok _ _ _).mp hrest
    cases b
    exact validate_criteria_keys_ok h2
  · intro loads t rub es crit hc ht hl h1 h2 hmis
    obtain ⟨e, herr, hism⟩ := validate_criteria_keys_err hmis
    refine ⟨e, ?_, hism⟩
    rw [parse_and_validate_run loads t rub es hc ht hl,
        validate_parsed_steps es crit _ h1 h2, herr, except_error_bind]
  · intro loads t rub es hc ht hl hno
    obtain ⟨e, herr, hism⟩ := validate_top_level_missing_criteria hno
    refine ⟨e, ?_, hism⟩
    rw [parse_and_validate_run loads t rub es hc ht hl]
    unfold validate_parsed
    rw [herr, except_error_bind]

/-- C1 witness. The exact-key-set theorem applied concretely: adding
`"_bogus"` to the criteria map yields a criterion-key mismatch; removing
`"criteria"` from the top level yields a top-level key mismatch. -/
theorem C1_exact_keyset_witness :
    (∃ e, parse_and_validate (loadsConst payloadBogus) "x" (some ⟨some rubric55⟩) =
      .error e ∧ isCriterionKeyMismatch e) ∧
    (∃ e, parse_and_validate (loadsConst payloadNoCrit) "x" (some ⟨some rubric55⟩) =
      .error e ∧ isTopLevelKeyMismatch e) :=
  ⟨C1_exact_keyset.2.1 (loadsConst payloadBogus) "x" rubric55 _ _
      (fun h => List.noConfusion h) (by with_unfolding_all decide) rfl rfl rfl
      ⟨"_bogus", Or.inr ⟨by decide, by decide⟩⟩,
   C1_exact_keyset.2.2 (loadsConst payloadNoCrit) "x" rubric55 _
      (fun h => List.noConfusion h) (by with_unfolding_all decide) rfl (by decide)⟩

/-! ## C4: error discriminability -/

/-- C4 counterexample. Two different validation failure cases (empty
input, and top-level value not an object) are raised with the same
Python exception class `JSONParseError`: callers cannot tell the ten
cases apart by a programmatic discriminant, only by message string. -/
theorem C4_counterexample :
    parse_and_validate (loadsConst (payload32 (.int 5) "ok")) "   " (runOf rubric55) =
      .error .emptyInput ∧
    parse_and_validate (loadsConst (.arr [])) "[1]" (runOf rubric55) =
      .error .topLevelNotObject ∧
    VErr.emptyInput ≠ VErr.topLevelNotObject ∧
    pyClass .emptyInput = pyClass .topLevelNotObject := by
  exact ⟨by with_unfolding_all rfl, by with_unfolding_all rfl,
    fun h => VErr.noConfusion h, rfl⟩

/-- C4 (amended). Every validation failure case is raised as the
single exception class `JSONParseError` (only the rubric-missing
precondition uses `RubricNotFoundError`); the cases are distinguishable
only by message contents, not by a programmatic discriminant. -/
theorem C4_single_exception_class :
    ∀ e : VErr, e ≠ .rubricMissing → pyClass e = .jsonParseError := by
  intro e he
  cases e <;> first | rfl | exact absurd rfl he

/-- C4 witness. The amended theorem applied to two concrete cases. -/
theorem C4_single_exception_class_witness :
    pyClass .emptyInput = .jsonParseError ∧
      pyClass .topLevelNotObject = .jsonParseError :=
  ⟨C4_single_exception_class .emptyInput (fun h => VErr.noConfusion h),
   C4_single_exception_class .topLevelNotObject (fun h => VErr.noConfusion h)⟩

/-! ## C9: the order of the two final checks -/

/-- C9 counterexample. An input whose overall score differs from the
criterion sum by more than 1e-6 AND whose overall comment trims to empty
is reported as the empty-comment error, not the overall-score mismatch
the spec's step order dictates. -/
theorem C9_counterexample :
    parse_and_validate (loadsConst (payload32 (.int 999) "   ")) "x" (runOf rubric55) =
      .error (.emptyComment "overall_comment") ∧
    parse_and_validate (loadsConst (payload32 (.int 999) "   ")) "x" (runOf rubric55) ≠
      .error (.overallScoreMismatch 999 5) ∧
    |(999 : ℚ) - 5| > 1/1000000 := by
  have h1 : parse_and_validate (loadsConst (payload32 (.int 999) "   ")) "x"
      (runOf rubric55) = .error (.emptyComment "overall_comment") := by
    with_unfolding_all rfl
  refine ⟨h1, ?_, by norm_num⟩
  rw [h1]
  intro hx
  exact VErr.noConfusion (Except.error.inj hx)

/-- C9 (amended). Validation checks its steps in a strict
first-failure order, but the `overall_comment` emptiness check runs
before the overall-score/sum comparison: whenever all earlier steps pass,
the overall comment trims to empty and the overall score differs from
the criterion sum by more than 1e-6, the reported error is the
empty-comment error, not the overall-score mismatch. -/
theorem C9_check_order :
    ∀ (loads : String → JsonDecodeResult) (t : String) (rub : RubricSnapshot)
      (es crit : List (String × JVal)) (acc : List (String × CriterionAssessment))
      (S q : ℚ) (oc : String),
      rub.criteria ≠ [] → t.trim ≠ "" → loads t.trim = .ok (.obj es) →
      validate_top_level es = .ok () → objGetD es "criteria" = .obj crit →
      validate_criteria_keys crit (rubric_criteria_map rub.criteria) = .ok () →
      validate_criteria_loop crit (rubric_criteria_map rub.criteria) [] 0 = .ok (acc, S) →
      as_number (objGetD es "overall_score") "overall_score" = .ok q →
      as_string (objGetD es "overall_comment") "overall_comment" = .ok oc →
      oc.trim = "" → |q - S| > 1/1000000 →
      parse_and_validate loads t (some ⟨some rub⟩) =
        .error (.emptyComment "overall_comment") := by
  intro loads t rub es crit acc S q oc hc ht hl h1 h2 h3 h4 h5 h6 h7 h8
  rw [parse_and_validate_run loads t rub es hc ht hl,
      validate_parsed_steps es crit _ h1 h2, h3, h4, h5, h6]
  simp only [except_ok_bind]
  rw [if_pos h7]

/-- C9 witness. The amended order theorem applied to the concrete
both-violations input. -/
theorem C9_check_order_witness :
    parse_and_validate (loadsConst (payload32 (.int 999) "   ")) "x"
      (some ⟨some rubric55⟩) = .error (.emptyComment "overall_comment") :=
  C9_check_order (loadsConst (payload32 (.int 999) "   ")) "x" rubric55 _ _
    [("c1", ⟨3, "good"⟩), ("c2", ⟨2, "fine"⟩)] 5 999 "   "
    (fun h => List.noConfusion h) (by with_unfolding_all decide) rfl rfl rfl rfl
    (by with_unfolding_all rfl) (by with_unfolding_all rfl) rfl
    (by with_unfolding_all decide) (by norm_num)

/-! ## C2: per-criterion score range -/

/-- C2. For every criterion with maximum points m and every finite
numeric score s, `_validate_score_range` accepts s iff
0 ≤ s ≤ m + 1e-9, and otherwise rejects with the score-range error for
that criterion; for m = 10, scores 10 and 10.0000000005 are accepted
while 10.01 and −0.001 are rejected. -/
theorem C2_score_range :
    (∀ (cid : String) (score maxPoints : ℚ),
      (validate_score_range cid score maxPoints = .ok () ↔
        0 ≤ score ∧ score ≤ maxPoints + 1/1000000000) ∧
      (validate_score_range cid score maxPoints = .ok () ∨
        validate_score_range cid score maxPoints = .error (.scoreNegative cid) ∨
        validate_score_range cid score maxPoints = .error (.scoreExceedsMax cid maxPoints))) ∧
    validate_score_range "c1" 10 10 = .ok () ∧
    validate_score_range "c1" (10 + 5/10000000000) 10 = .ok () ∧
    validate_score_range "c1" (1001/100) 10 = .error (.scoreExceedsMax "c1" 10) ∧
    validate_score_range "c1" (-(1/1000)) 10 = .error (.scoreNegative "c1") := by
  refine ⟨fun cid score maxPoints => ?_, by with_unfolding_all rfl,
    by with_unfolding_all rfl, by with_unfolding_all rfl, by with_unfolding_all rfl⟩
  unfold validate_score_range
  split_ifs with h1 h2
  · exact ⟨⟨fun h => by simp at h, fun ⟨h, _⟩ => absurd h1 (not_lt.mpr h)⟩, Or.inr (Or.inl rfl)⟩
  · exact ⟨⟨fun h => by simp at h, fun ⟨_, h⟩ => absurd h2 (not_lt.mpr h)⟩, Or.inr (Or.inr rfl)⟩
  · exact ⟨⟨fun _ => ⟨not_lt.mp h1, not_lt.mp h2⟩, fun _ => rfl⟩, Or.inl rfl⟩

/-! ## C3: overall score vs. criterion sum -/

/-- C3. `_validate_overall_score` accepts iff
|overall − sum| ≤ 1e-6 and otherwise fails with the overall-score
mismatch error reporting both values; end to end, with criterion scores
3 and 2 (rubric 5+5), overall 5 and 5.0000001 validate while 5.01 fails
with the mismatch error. -/
theorem C3_overall_score :
    (∀ overall scoreSum : ℚ,
      (validate_overall_score overall scoreSum = .ok () ↔
        |overall - scoreSum| ≤ 1/1000000) ∧
      (¬ |overall - scoreSum| ≤ 1/1000000 →
        validate_overall_score overall scoreSum =
          .error (.overallScoreMismatch overall scoreSum))) ∧
    parse_and_validate (loadsConst (payload32 (.int 5) "ok")) "x" (runOf rubric55) =
      .ok ⟨5, "ok", [("c1", ⟨3, "good"⟩), ("c2", ⟨2, "fine"⟩)]⟩ ∧
    parse_and_validate
        (loadsConst (payload32 (.float (.finite (5 + 1/10000000))) "ok")) "x"
        (runOf rubric55) =
      .ok ⟨5 + 1/10000000, "ok", [("c1", ⟨3, "good"⟩), ("c2", ⟨2, "fine"⟩)]⟩ ∧
    parse_and_validate (loadsConst (payload32 (.float (.finite (501/100))) "ok")) "x"
        (runOf rubric55) = .error (.overallScoreMismatch (501/100) 5) := by
  refine ⟨fun overall scoreSum => ?_, by with_unfolding_all rfl,
    by with_unfolding_all rfl, by with_unfolding_all rfl⟩
  unfold validate_overall_score
  split_ifs with h
  · exact ⟨⟨fun hh => by simp at hh, fun hh => absurd h (not_lt.mpr hh)⟩, fun _ => rfl⟩
  · exact ⟨⟨fun _ => not_lt.mp h, fun _ => rfl⟩, fun hh => absurd (not_lt.mp h) hh⟩

/-- C2 witness. The range characterisation applied at score 3,
maximum 10. -/
theorem C2_score_range_witness :
    0 ≤ (3 : ℚ) ∧ (3 : ℚ) ≤ 10 + 1/1000000000 :=
  (C2_score_range.1 "c" 3 10).1.mp (by with_unfolding_all rfl)

/-! ## C8: revision depth label -/

/-- C8. The depth label is "substantial" iff
sentence_change_pct ≥ 70, "moderate" iff 35 ≤ sentence_change_pct < 70,
and "light" otherwise, and it depends only on `sentence_change_pct`. -/
theorem C8_depth_label :
    (∀ m : RevisionMetrics,
      (revision_depth_label m = "substantial" ↔ 70 ≤ m.sentence_change_pct) ∧
      (revision_depth_label m = "moderate" ↔
        35 ≤ m.sentence_change_pct ∧ m.sentence_change_pct < 70) ∧
      (revision_depth_label m = "light" ↔ m.sentence_change_pct < 35)) ∧
    (∀ m m' : RevisionMetrics,
      m.sentence_change_pct = m'.sentence_change_pct →
      revision_depth_label m = revision_depth_label m') := by
  constructor
  · intro m
    unfold revision_depth_label
    split_ifs with h1 h2
    · refine ⟨⟨fun _ => h1, fun _ => rfl⟩, ⟨fun h => ?_, fun ⟨_, hc⟩ => absurd h1 (not_le.mpr hc)⟩,
        ⟨fun h => ?_, fun hc => absurd h1 (not_le.mpr (lt_trans hc (by norm_num)))⟩⟩
      · exact absurd h (by decide)
      · exact absurd h (by decide)
    · refine ⟨⟨fun h => absurd h (by decide), fun hc => absurd hc h1⟩,
        ⟨fun _ => ⟨h2, not_le.mp h1⟩, fun _ => rfl⟩,
        ⟨fun h => absurd h (by decide), fun hc => absurd h2 (not_le.mpr hc)⟩⟩
    · refine ⟨⟨fun h => absurd h (by decide), fun hc => absurd hc h1⟩,
        ⟨fun h => absurd h (by decide), fun ⟨hc, _⟩ => absurd hc h2⟩,
        ⟨fun _ => not_le.mp h2, fun _ => rfl⟩⟩
  · intro m m' h
    unfold revision_depth_label
    rw [h]

/-- C3 witness. The tolerance characterisation applied at
overall = sum = 5. -/
theorem C3_overall_score_witness :
    |(5 : ℚ) - 5| ≤ 1/1000000 :=
  ((C3_overall_score.1 5 5).1).mp (by with_unfolding_all rfl)

/-- C8 witness. The threshold characterisation applied at
sentence_change_pct = 80. -/
theorem C8_depth_label_witness :
    revision_depth_label ⟨80, 0, 0, 0, 0, 0, 0, 0⟩ = "substantial" :=
  ((C8_depth_label.1 ⟨80, 0, 0, 0, 0, 0, 0, 0⟩).1).mpr (by norm_num)

/-! ## C10: identical texts are a fixed point of the revision metrics -/

theorem sentence_change_pct_self (l : List String) : sentence_change_pct l l = 0 := by
  unfold sentence_change_pct
  dsimp only
  split_ifs with h1 h2
  · rfl
  · rfl
  · have hfil : ((l.filter (fun s => s.trim ≠ "")).map norm_sentence).filter
        (fun s => ((l.filter (fun s => s.trim ≠ "")).map norm_sentence).contains s) =
        (l.filter (fun s => s.trim ≠ "")).map norm_sentence :=
      List.filter_eq_self.mpr (fun s hs => List.elem_iff.mpr hs)
    rw [hfil]
    simp

theorem word_jaccard_pct_self (t : String) : word_jaccard_pct t t = 100 := by
  unfold word_jaccard_pct
  dsimp only
  split_ifs with h1 h2
  · rfl
  · exfalso
    apply h1
    have hcard : ((tokenize_words t).toFinset ∪ (tokenize_words t).toFinset).card = 0 :=
      Nat.le_zero.mp h2
    have hempty : (tokenize_words t).toFinset = ∅ := by
      rw [Finset.union_self] at hcard
      exact Finset.card_eq_zero.mp hcard
    exact ⟨hempty, hempty⟩
  · rw [Finset.inter_self, Finset.union_self]
    rw [Finset.union_self] at h2
    have hne : (((tokenize_words t).toFinset.card : ℚ)) ≠ 0 :=
      Nat.cast_ne_zero.mpr (by omega)
    exact mul_div_cancel_right₀ 100 hne

/-- C10. Comparing any text with itself is a fixed point of the
revision metrics: sentence_change_pct = 0, word_overlap_pct = 100,
depth label "light", and the before/after average sentence length,
sentence-length variance and paragraph count coincide — for every
string, including the empty string. -/
theorem C10_identity_fixed_point (t : String) :
    (compute_revision_metrics t t).sentence_change_pct = 0 ∧
    (compute_revision_metrics t t).word_overlap_pct = 100 ∧
    revision_depth_label (compute_revision_metrics t t) = "light" ∧
    (compute_revision_metrics t t).avg_sentence_length_before =
      (compute_revision_metrics t t).avg_sentence_length_after ∧
    (compute_revision_metrics t t).sentence_length_variance_before =
      (compute_revision_metrics t t).sentence_length_variance_after ∧
    (compute_revision_metrics t t).paragraph_count_before =
      (compute_revision_metrics t t).paragraph_count_after := by
  have hs : (compute_revision_metrics t t).sentence_change_pct =
      sentence_change_pct (split_sentences t) (split_sentences t) := rfl
  have hw : (compute_revision_metrics t t).word_overlap_pct = word_jaccard_pct t t := rfl
  refine ⟨?_, ?_, ?_, rfl, rfl, rfl⟩
  · rw [hs]; exact sentence_change_pct_self _
  · rw [hw]; exact word_jaccard_pct_self _
  · unfold revision_depth_label
    rw [hs, sentence_change_pct_self]
    rw [if_neg (by norm_num), if_neg (by norm_num)]

/-! ## C5: fingerprint canonical string form -/

/-- The source's fingerprint, written with the attempt segment factored
out. -/
theorem fingerprint_eq (H : String → String) (sub : Submission) :
    compute_submission_fingerprint H sub =
      attemptSeg sub.attempt ++ "|submitted_at=" ++ effSubmittedAt sub ++
        "|updated_at=" ++ effUpdatedAt sub ++ "|body_sha256=" ++ H (effBody sub.body) := by
  unfold compute_submission_fingerprint attemptSeg
  cases sub.attempt <;> rfl

/-- C5 counterexample. On a submission with every field absent, the
source fingerprint (label `body_sha256=`) differs from the spec's stated
canonical form (label `body_hash=`). -/
theorem C5_counterexample :
    compute_submission_fingerprint (fun _ => "h0") subEmpty ≠
      spec_fingerprint_form (fun _ => "h0") subEmpty := by
  decide

/-- C5 (amended). The fingerprint is exactly
`attempt=<n|?>|submitted_at=<ts>|updated_at=<ts>|body_sha256=<hex>`:
the attempt segment is the decimal attempt number, or `?` when absent;
the first timestamp slot is `submitted_at` (falling back to `posted_at`
when `submitted_at` is absent or empty) and is empty when both are
absent; the second is `updated_at` or empty; `<hex>` is the hash of the
body (of the empty string when the body is absent or non-text). -/
theorem C5_fingerprint_format :
    ∀ (H : String → String) (sub : Submission),
      compute_submission_fingerprint H sub =
        attemptSeg sub.attempt ++ "|submitted_at=" ++ effSubmittedAt sub ++
          "|updated_at=" ++ effUpdatedAt sub ++ "|body_sha256=" ++ H (effBody sub.body) ∧
      (sub.attempt = none → attemptSeg sub.attempt = "attempt=?") ∧
      (∀ n, sub.attempt = some n → attemptSeg sub.attempt = "attempt=" ++ pyIntStr n) ∧
      (sub.submitted_at = none → sub.posted_at = none → effSubmittedAt sub = "") ∧
      (sub.updated_at = none → effUpdatedAt sub = "") ∧
      (sub.body = none → effBody sub.body = "") ∧
      (∀ b, sub.body = some (.nonText b) → effBody sub.body = "") := by
  intro H sub
  refine ⟨fingerprint_eq H sub, fun h => by rw [h]; rfl, fun n h => by rw [h]; rfl,
    fun h1 h2 => ?_, fun h => ?_, fun h => by rw [h]; rfl, fun b h => by rw [h]; rfl⟩
  · unfold effSubmittedAt
    rw [h1, h2]
    rfl
  · unfold effUpdatedAt
    rw [h]
    rfl

/-- C5 witness. The amended format theorem applied to the all-absent
submission with a concrete hash function. -/
theorem C5_fingerprint_format_witness :
    compute_submission_fingerprint (fun _ => "h0") subEmpty =
      attemptSeg none ++ "|submitted_at=" ++ "" ++ "|updated_at=" ++ "" ++
        "|body_sha256=" ++ "h0" ∧
    attemptSeg subEmpty.attempt = "attempt=?" :=
  ⟨(C5_fingerprint_format (fun _ => "h0") subEmpty).1,
   (C5_fingerprint_format (fun _ => "h0") subEmpty).2.1 rfl⟩

/-! ## C6: what the fingerprint does and does not discriminate -/

theorem digitChar_toNat {d : ℕ} (hd : d < 10) : (digitChar d).toNat = 48 + d := by
  interval_cases d <;> rfl

theorem digitChar_isDigit {d : ℕ} (hd : d < 10) : (digitChar d).isDigit = true := by
  interval_cases d <;> rfl

theorem digitChar_inj {d e : ℕ} (hd : d < 10) (he : e < 10)
    (h : digitChar d = digitChar e) : d = e := by
  have h1 := digitChar_toNat hd
  have h2 := digitChar_toNat he
  rw [h] at h1
  omega

theorem natStr_chars {n : ℕ} {c : Char} (hc : c ∈ (natStr n).data) : c.isDigit = true := by
  unfold natStr at hc
  split_ifs at hc with h
  · have h0 : ("0" : String).data = ['0'] := rfl
    rw [h0, List.mem_singleton] at hc
    rw [hc]
    rfl
  · have hmk : (String.mk (((Nat.digits 10 n).map digitChar).reverse)).data
      = ((Nat.digits 10 n).map digitChar).reverse := rfl
    rw [hmk, List.mem_reverse] at hc
    obtain ⟨d, hd, rfl⟩ := List.mem_map.mp hc
    exact digitChar_isDigit (Nat.digits_lt_base (by norm_num) hd)

theorem map_digitChar_inj {l1 l2 : List ℕ} (h1 : ∀ d ∈ l1, d < 10) (h2 : ∀ d ∈ l2, d < 10)
    (h : l1.map digitChar = l2.map digitChar) : l1 = l2 := by
  induction l1 generalizing l2 with
  | nil => cases l2 with
    | nil => rfl
    | cons b bs => simp at h
  | cons a as ih =>
    cases l2 with
    | nil => simp at h
    | cons b bs =>
      simp only [List.map_cons, List.cons.injEq] at h
      have hab := digitChar_inj (h1 a (by simp)) (h2 b (by simp)) h.1
      have hrest := ih (fun d hd => h1 d (by simp [hd])) (fun d hd => h2 d (by simp [hd])) h.2
      rw [hab, hrest]

theorem natStr_inj {a b : ℕ} (h : natStr a = natStr b) : a = b := by
  have hdata := congrArg String.data h
  unfold natStr at hdata
  split_ifs at hdata with ha hb hb
  · rw [ha, hb]
  · exfalso
    have h1 : (['0'] : List Char) = ((Nat.digits 10 b).map digitChar).reverse := hdata
    have h2 : (Nat.digits 10 b).map digitChar = ['0'] := by
      rw [← List.reverse_reverse ((Nat.digits 10 b).map digitChar), ← h1]
      rfl
    match hdig : Nat.digits 10 b with
    | [] => rw [hdig] at h2; simp at h2
    | d :: ds =>
      rw [hdig] at h2
      simp only [List.map_cons, List.cons.injEq] at h2
      have hds : ds = [] := List.map_eq_nil_iff.mp h2.2
      have hd10 : d < 10 := Nat.digits_lt_base (by norm_num) (by rw [hdig]; simp)
      have hd0 : d = 0 := digitChar_inj hd10 (by norm_num) h2.1
      have : b = 0 := by
        have hb' := Nat.ofDigits_digits 10 b
        rw [hdig, hds, hd0] at hb'
        simpa using hb'.symm
      exact hb this
  · exfalso
    have h1 : ((Nat.digits 10 a).map digitChar).reverse = (['0'] : List Char) := hdata
    have h2 : (Nat.digits 10 a).map digitChar = ['0'] := by
      rw [← List.reverse_reverse ((Nat.digits 10 a).map digitChar), h1]
      rfl
    match hdig : Nat.digits 10 a with
    | [] => rw [hdig] at h2; simp at h2
    | d :: ds =>
      rw [hdig] at h2
      simp only [List.map_cons, List.cons.injEq] at h2
      have hds : ds = [] := List.map_eq_nil_iff.mp h2.2
      have hd10 : d < 10 := Nat.digits_lt_base (by norm_num) (by rw [hdig]; simp)
      have hd0 : d = 0 := digitChar_inj hd10 (by norm_num) h2.1
      have : a = 0 := by
        have ha' := Nat.ofDigits_digits 10 a
        rw [hdig, hds, hd0] at ha'
        simpa using ha'.symm
      exact ha this
  · have hrev : ((Nat.digits 10 a).map digitChar).reverse
        = ((Nat.digits 10 b).map digitChar).reverse := hdata
    have hmap := List.reverse_injective hrev
    have hdig := map_digitChar_inj
      (fun d hd => Nat.digits_lt_base (by norm_num) hd)
      (fun d hd => Nat.digits_lt_base (by norm_num) hd) hmap
    have := congrArg (Nat.ofDigits 10) hdig
    rwa [Nat.ofDigits_digits, Nat.ofDigits_digits] at this

theorem pyIntStr_chars {i : ℤ} {c : Char} (hc : c ∈ (pyIntStr i).data) :
    c = '-' ∨ c.isDigit = true := by
  unfold pyIntStr at hc
  split_ifs at hc with h
  · rw [String.data_append] at hc
    rcases List.mem_append.mp hc with h1 | h1
    · left
      have : ("-" : String).data = ['-'] := rfl
      rw [this, List.mem_singleton] at h1
      exact h1
    · right
      exact natStr_chars h1
  · right
    exact natStr_chars hc

theorem pyIntStr_inj {i j : ℤ} (h : pyIntStr i = pyIntStr j) : i = j := by
  unfold pyIntStr at h
  split_ifs at h with hi hj hj
  · have hdata := congrArg String.data h
    rw [String.data_append, String.data_append] at hdata
    have hcancel := List.append_cancel_left hdata
    have := natStr_inj (String.ext hcancel)
    omega
  · exfalso
    have hdata := congrArg String.data h
    rw [String.data_append] at hdata
    have hmem : '-' ∈ (natStr j.natAbs).data := by
      rw [← hdata]
      exact List.mem_append_left _ (by decide)
    rcases natStr_chars hmem with h1
    exact absurd h1 (by decide)
  · exfalso
    have hdata := congrArg String.data h
    rw [String.data_append] at hdata
    have hmem : '-' ∈ (natStr i.natAbs).data := by
      rw [hdata]
      exact List.mem_append_left _ (by decide)
    rcases natStr_chars hmem with h1
    exact absurd h1 (by decide)
  · have := natStr_inj h
    omega

theorem attemptSeg_inj {a b : Option ℤ} (h : attemptSeg a = attemptSeg b) : a = b := by
  cases a with
  | none =>
    cases b with
    | none => rfl
    | some n =>
      exfalso
      simp only [attemptSeg] at h
      have hdata := congrArg String.data h
      rw [String.data_append] at hdata
      have h8 : ("attempt=?" : String).data = ("attempt=" : String).data ++ ['?'] := by decide
      rw [h8] at hdata
      have hq : (['?'] : List Char) = (pyIntStr n).data := List.append_cancel_left hdata
      have hm : '?' ∈ (pyIntStr n).data := by
        rw [← hq]
        exact List.mem_singleton_self '?'
      rcases pyIntStr_chars hm with h1 | h1
      · exact absurd h1 (by decide)
      · exact absurd h1 (by decide)
  | some n =>
    cases b with
    | none =>
      exfalso
      simp only [attemptSeg] at h
      have hdata := congrArg String.data h
      rw [String.data_append] at hdata
      have h8 : ("attempt=?" : String).data = ("attempt=" : String).data ++ ['?'] := by decide
      rw [h8] at hdata
      have hq : (pyIntStr n).data = (['?'] : List Char) := List.append_cancel_left hdata
      have hm : '?' ∈ (pyIntStr n).data := by
        rw [hq]
        exact List.mem_singleton_self '?'
      rcases pyIntStr_chars hm with h1 | h1
      · exact absurd h1 (by decide)
      · exact absurd h1 (by decide)
    | some m =>
      simp only [attemptSeg] at h
      have hdata := congrArg String.data h
      rw [String.data_append, String.data_append] at hdata
      have hcancel := List.append_cancel_left hdata
      rw [pyIntStr_inj (String.ext hcancel)]

/-- C6 counterexample. Two submission states that differ in both
timestamp fields but produce the identical fingerprint, because the
`|updated_at=` separator can be embedded inside a timestamp string: the
claim's "any difference in ... timestamps ... changes the fingerprint"
fails. -/
theorem C6_counterexample :
    compute_submission_fingerprint (fun s => s) subT1 =
      compute_submission_fingerprint (fun s => s) subT2 ∧
    subT1.submitted_at ≠ subT2.submitted_at ∧
    subT1.updated_at ≠ subT2.updated_at ∧
    subT1.attempt = subT2.attempt ∧
    effBody subT1.body = effBody subT2.body := by
  refine ⟨by decide, by decide, by decide, rfl, rfl⟩

/-- C6 (amended). The fingerprint is a function of the attempt, the
effective timestamps (submitted_at falling back to posted_at), and the
body text only: states agreeing on those yield identical strings
regardless of any other field.  A difference in attempt always changes
the fingerprint, and so does a difference in the hash of the body; a
difference in the timestamp fields need not (see the counterexample),
and a body difference shows up only through the hash. -/
theorem C6_fingerprint_dependence :
    (∀ (H : String → String) (s s' : Submission),
      s.attempt = s'.attempt → effSubmittedAt s = effSubmittedAt s' →
      effUpdatedAt s = effUpdatedAt s' → effBody s.body = effBody s'.body →
      compute_submission_fingerprint H s = compute_submission_fingerprint H s') ∧
    (∀ (H : String → String) (s s' : Submission),
      effSubmittedAt s = effSubmittedAt s' → effUpdatedAt s = effUpdatedAt s' →
      H (effBody s.body) = H (effBody s'.body) → s.attempt ≠ s'.attempt →
      compute_submission_fingerprint H s ≠ compute_submission_fingerprint H s') ∧
    (∀ (H : String → String) (s s' : Submission),
      s.attempt = s'.attempt → effSubmittedAt s = effSubmittedAt s' →
      effUpdatedAt s = effUpdatedAt s' → H (effBody s.body) ≠ H (effBody s'.body) →
      compute_submission_fingerprint H s ≠ compute_submission_fingerprint H s') := by
  refine ⟨fun H s s' h1 h2 h3 h4 => ?_, fun H s s' h2 h3 h4 h1 heq => ?_,
    fun H s s' h1 h2 h3 h4 heq => ?_⟩
  · rw [fingerprint_eq, fingerprint_eq, h1, h2, h3, h4]
  · apply h1
    rw [fingerprint_eq, fingerprint_eq, h2, h3, h4] at heq
    have hdata := congrArg String.data heq
    simp only [String.data_append, List.append_assoc] at hdata
    exact attemptSeg_inj (String.ext (List.append_cancel_right hdata))
  · apply h4
    rw [fingerprint_eq, fingerprint_eq, h1, h2, h3] at heq
    have hdata := congrArg String.data heq
    simp only [String.data_append, List.append_assoc] at hdata
    have e1 := List.append_cancel_left hdata
    have e2 := List.append_cancel_left e1
    have e3 := List.append_cancel_left e2
    have e4 := List.append_cancel_left e3
    have e5 := List.append_cancel_left e4
    have e6 := List.append_cancel_left e5
    exact String.ext e6

/-- C6 witness. Attempt 1 vs attempt 2 with everything else equal:
the fingerprints differ (the amended theorem applied concretely). -/
theorem C6_fingerprint_dependence_witness :
    compute_submission_fingerprint (fun s => s) subA1 ≠
      compute_submission_fingerprint (fun s => s) subA2 :=
  C6_fingerprint_dependence.2.1 (fun s => s) subA1 subA2 rfl rfl rfl (by decide)

/-! ## C7: already_assessed is a literal marker substring scan -/

/-- C7. When the submission's `submission_comments` field is a list,
`already_assessed` returns true iff some entry of the list carries a
string comment containing the literal marker `"<prefix>: <fp>"`
(`get_fingerprint_marker fp`) as a substring; in particular it returns
false on the empty comment list. -/
theorem C7_already_assessed :
    ∀ (sub : Submission) (fp : String) (cs : List CommentEntry),
      sub.submission_comments = some (.clist cs) →
      ((already_assessed sub fp = true ↔
        ∃ c ∈ cs, ∃ txt, commentText c = some txt ∧
          List.IsInfix (get_fingerprint_marker fp).data txt.data) ∧
       (cs = [] → already_assessed sub fp = false)) := by
  intro sub fp cs hc
  unfold already_assessed
  rw [hc]
  dsimp only
  constructor
  · rw [List.any_eq_true]
    constructor
    · rintro ⟨c, hmem, hp⟩
      match hct : commentText c with
      | none => rw [hct] at hp; simp at hp
      | some txt =>
        rw [hct] at hp
        exact ⟨c, hmem, txt, hct, of_decide_eq_true hp⟩
    · rintro ⟨c, hmem, txt, hct, hinf⟩
      refine ⟨c, hmem, ?_⟩
      rw [hct]
      exact decide_eq_true hinf
  · intro h
    rw [h]
    rfl

/-- C7 witness. The marker-scan characterisation applied to a
concrete submission with one marker-bearing comment. -/
theorem C7_already_assessed_witness :
    (already_assessed subW "FP" = true ↔
      ∃ c ∈ [CommentEntry.cdict (some (.vstr "x aigrader_fingerprint: FP y"))],
        ∃ txt, commentText c = some txt ∧
          List.IsInfix (get_fingerprint_marker "FP").data txt.data) ∧
    already_assessed subW "FP" = true :=
  ⟨(C7_already_assessed subW "FP" _ rfl).1,
   by decide⟩

end AIGrader
